import Mathlib

/-!
Verification of the Session Lifecycle & Identity Provisioning engine of
DataDeckv2 against its natural-language specification.

The Python source is shallowly embedded: SQLAlchemy tables become lists of
records, the ambient database session becomes an explicit `DB` value threaded
through the operations, and the ambient random number generator becomes an
explicit stream `rand : Nat → Nat` consumed position by position (each
primitive draw reads one position).  Machine behaviour that the claims
depend on (in particular the exact semantics of the filter expression
`cls.is_archived is False` in `Session.find_active_conflict`) is embedded
as the code actually behaves, not as its docstrings say.
-/

namespace DataDeck

/-! ## Decimal formatting infrastructure

Python renders numbers with `str` / format specs.  `natRepr` is standard
decimal notation (fuel-based so that it reduces definitionally), `fmt02`
is Python's `f"{i:02d}"` (pad with a leading zero to width 2). -/

/-- The character for a decimal digit `d < 10` (codepoint 48 + d). -/
def digitChar (d : Nat) : Char := Char.ofNat (48 + d)

/-- Accumulator-style decimal digit list; `fuel ≥ n` makes it exact. -/
def natDigitsAux : Nat → Nat → List Char → List Char
  | 0, _, acc => acc
  | fuel + 1, n, acc =>
    if n = 0 then acc else natDigitsAux fuel (n / 10) (digitChar (n % 10) :: acc)

/-- Decimal representation of a natural number, as Python's `str`. -/
def natRepr (n : Nat) : String :=
  if n = 0 then "0" else String.mk (natDigitsAux n n [])

/-- Python's `f"{i:02d}"`: decimal, left-padded with zeros to width 2. -/
def fmt02 (i : Nat) : String :=
  if i < 10 then "0" ++ natRepr i else natRepr i

/-- ASCII letter test (used to separate name-pool material from digit
suffixes in roster names). -/
def isLetterChar (c : Char) : Bool :=
  (65 ≤ c.toNat && c.toNat ≤ 90) || (97 ≤ c.toNat && c.toNat ≤ 122)

/-- ASCII digit test. -/
def isDigitChar (c : Char) : Bool :=
  48 ≤ c.toNat && c.toNat ≤ 57

/-- All characters of a string are ASCII letters. -/
def alphaStr (s : String) : Bool := s.data.all isLetterChar

/-- All characters of a string are ASCII digits. -/
def digitStr (s : String) : Bool := s.data.all isDigitChar

/-! ## Data model (src/models/session.py, src/models/student.py)

`Session` mirrors the `sessions` table.  The source column `section` is a
Lean keyword, so the field is called `sect`.  `Student` mirrors the
`students` table; the extra `pin` field is a ghost field recording the
plaintext PIN whose hash the code stores in `pin_hash` — the code itself
discards the plaintext after hashing, but the specification's claims
quantify over plaintext PINs, so the embedding keeps the transient value
alongside the record. -/

structure Session where
  id : Nat
  name : String
  original_name : Option String
  session_code : String
  /-- the source's `section` column (`section` is a Lean keyword) -/
  sect : Nat
  module_id : Nat
  is_paused : Bool
  is_archived : Bool
  archived_at : Option Nat
  character_set : String
  created_by_id : Nat
deriving DecidableEq, Repr

structure Student where
  id : Nat
  username : String
  email : String
  password_hash : String
  character_name : String
  teacher_id : Nat
  section_id : Option Nat
  pin_hash : String
  avatar_path : String
  /-- ghost field: the plaintext PIN that was hashed into `pin_hash` -/
  pin : String
deriving DecidableEq, Repr

/-- The relational store: the two tables the core operates on. -/
structure DB where
  sessions : List Session
  students : List Student
deriving DecidableEq, Repr

/-- werkzeug's `generate_password_hash`, modelled as a deterministic
injective tag.  (The real function salts; no claim in scope compares hash
values across calls, only that the stored hash is derived from the drawn
plaintext.) -/
def generate_password_hash (p : String) : String := "hash:" ++ p

/-! ## Session model helpers (src/models/session.py) -/

/-- `Session.archive`: no-op when already archived, otherwise set the flag
and stamp `archived_at` with the current time. -/
def Session.archive (s : Session) (now : Nat) : Session :=
  if s.is_archived then s
  else { s with is_archived := true, archived_at := some now }

/-- `Session.find_active_conflict`.  The source filters with

  `cls.created_by_id == teacher_id, cls.section == section,
   cls.is_archived is False`

The third criterion is a Python identity test between the SQLAlchemy
`Column` object and the singleton `False`; it evaluates — in Python,
before any SQL is built — to the constant `False`, which SQLAlchemy
coerces to the SQL literal false.  The emitted query is therefore
`WHERE created_by_id = ? AND section = ? AND false`, matching no row, so
the embedded predicate carries the same `&& false`.  The `if
exclude_session_id:` truthiness test is embedded as "present and
nonzero". -/
def find_active_conflict (sessions : List Session) (teacher_id sect : Nat)
    (exclude_session_id : Option Nat) : Option Session :=
  let q := sessions.filter (fun s =>
    (s.created_by_id == teacher_id && s.sect == sect) && false)
  let q : List Session := match exclude_session_id with
    | some eid => if eid ≠ 0 then q.filter (fun s => s.id != eid) else q
    | none => q
  q.head?

/-! ## SessionService (src/services/session_service.py) -/

/-- The alphabet for session codes: `string.ascii_uppercase + string.digits`. -/
def codeAlphabet : List Char := "ABCDEFGHIJKLMNOPQRSTUVWXYZ0123456789".data

/-- The uniqueness oracle behind `generate_session_code`:
`Session.query.filter_by(session_code=code).first()` is truthy iff some
session currently carries the code. -/
def session_code_exists (sessions : List Session) (code : String) : Bool :=
  sessions.any (fun s => s.session_code == code)

/-- One iteration of the generation loop: `length` calls to
`random.choice(alphabet)`, the j-th reading entry j of one draw chunk. -/
def mkCode (draw : List Nat) (len : Nat) : String :=
  String.mk ((List.range len).map (fun j => codeAlphabet.getD (draw.getD j 0 % 36) 'A'))

/-- `SessionService.generate_session_code`: rejection-sample until the code
is not present.  The unbounded `while True` loop is embedded with one draw
chunk per iteration; an exhausted draw list (`none`) models the loop still
running. -/
def generate_session_code (sessions : List Session) :
    List (List Nat) → Nat → Option String
  | [], _ => none
  | draw :: rest, len =>
    let code := mkCode draw len
    if session_code_exists sessions code then
      generate_session_code sessions rest len
    else some code

/-- `SessionService.validate_session_uniqueness` simply delegates to
`Session.find_active_conflict`. -/
def validate_session_uniqueness (sessions : List Session)
    (teacher_id sect : Nat) (session_id : Option Nat) : Option Session :=
  find_active_conflict sessions teacher_id sect session_id

/-- Outcome of `SessionService.create_session`.  `conflict` is the raised
`SessionConflictError` carrying the existing session; `codegenDiverges`
marks exhaustion of the modelled draw list inside `generate_session_code`
(the Python loop would still be running). -/
inductive CreateOutcome where
  | conflict (existing : Session)
  | created (db : DB) (newSession : Session) (wasArchived : Bool)
  | codegenDiverges
deriving DecidableEq, Repr

/-- Archive the session with the given id in place (the ORM mutation
`existing_session.archive()` followed by `flush`). -/
def archiveById (sessions : List Session) (sid now : Nat) : List Session :=
  sessions.map (fun s => if s.id == sid then s.archive now else s)

/-- Tail of `create_session` after conflict handling: allocate a code and
insert the new row (flush assigns `newId`). -/
def finishCreate (db : DB) (sessions1 : List Session) (teacher_id : Nat)
    (name : String) (sect module_id : Nat) (character_set : String)
    (wasArchived : Bool) (codeDraws : List (List Nat)) (newId : Nat) :
    CreateOutcome :=
  match generate_session_code sessions1 codeDraws 8 with
  | none => .codegenDiverges
  | some code =>
    let ns : Session :=
      { id := newId, name := name, original_name := none, session_code := code,
        sect := sect, module_id := module_id, is_paused := false,
        is_archived := false, archived_at := none,
        character_set := character_set, created_by_id := teacher_id }
    .created { db with sessions := sessions1 ++ [ns] } ns wasArchived

/-- `SessionService.create_session`: check for a conflict; on conflict
either raise `SessionConflictError` or (with `auto_archive_existing`)
archive the found session first; then create the new session. -/
def create_session (db : DB) (teacher_id : Nat) (name : String)
    (sect module_id : Nat) (character_set : String)
    (auto_archive_existing : Bool) (codeDraws : List (List Nat))
    (now newId : Nat) : CreateOutcome :=
  match validate_session_uniqueness db.sessions teacher_id sect none with
  | some existing =>
    if auto_archive_existing then
      finishCreate db (archiveById db.sessions existing.id now) teacher_id
        name sect module_id character_set true codeDraws newId
    else .conflict existing
  | none =>
    finishCreate db db.sessions teacher_id name sect module_id character_set
      false codeDraws newId

/-! ## Identity Provisioner (SessionService.generate_students_for_session)

The name pools are the literal lists from the source.  `random.choice`
becomes `choice pool r` where `r` is the value read from the random
stream; `random.randint(1000, 9999)` becomes `1000 + r % 9000`. -/

def animal_names : List String :=
  ["Bear", "Wolf", "Eagle", "Lion", "Tiger", "Shark", "Hawk", "Fox", "Deer", "Owl"]

def hero_prefixes : List String :=
  ["Captain", "Super", "Ultra", "Mega", "Power", "Storm", "Fire", "Ice",
   "Thunder", "Lightning"]

def hero_suffixes : List String :=
  ["Hero", "Guardian", "Defender", "Warrior", "Knight"]

def fantasy_names : List String :=
  ["Elf", "Dwarf", "Wizard", "Knight", "Archer", "Mage", "Warrior", "Ranger",
   "Paladin", "Druid"]

def space_prefixes : List String :=
  ["Star", "Nova", "Comet", "Galaxy", "Nebula", "Cosmos", "Orbit", "Solar",
   "Lunar", "Astro"]

def space_suffixes : List String :=
  ["Explorer", "Pilot", "Navigator", "Commander", "Scout"]

/-- `random.choice(pool)` with the stream value `r` selecting the element. -/
def choice (pool : List String) (r : Nat) : String :=
  pool.getD (r % pool.length) ""

/-- One call of the theme's name generator at roster index `idx`
(`i + attempts` in the source), reading the stream at position `k`.
Returns the name and the next stream position (the superheroes and space
themes consume two draws).  Unknown character sets fall back to the
animals generator, as `character_generators.get(..., animals)` does. -/
def nameGen (character_set : String) (rand : Nat → Nat) (k idx : Nat) :
    String × Nat :=
  if character_set == "superheroes" then
    (choice hero_prefixes (rand k) ++ choice hero_suffixes (rand (k + 1)) ++ fmt02 idx,
     k + 2)
  else if character_set == "fantasy" then
    (choice fantasy_names (rand k) ++ fmt02 idx, k + 1)
  else if character_set == "space" then
    (choice space_prefixes (rand k) ++ choice space_suffixes (rand (k + 1)) ++ fmt02 idx,
     k + 2)
  else
    (choice animal_names (rand k) ++ fmt02 idx, k + 1)

/-- Result of the per-student name loop: the chosen name, the updated
`used_names` (unchanged when the deterministic fallback fired — the
source does not add the fallback name to the set), and the next stream
position. -/
structure NameDraw where
  name : String
  used : List String
  k : Nat
deriving DecidableEq, Repr

/-- The `while attempts < 50` loop for student `i`: candidate
`name_generator(i + attempts)`, accepted when unused so far; after 50
failed attempts fall back to `f"Student{i:02d}"`. -/
def tryNames (character_set : String) (rand : Nat → Nat) (used : List String)
    (i : Nat) : Nat → Nat → Nat → NameDraw
  | 0, _, k => { name := "Student" ++ fmt02 i, used := used, k := k }
  | fuel + 1, attempts, k =>
    if used.contains (nameGen character_set rand k (i + attempts)).1 then
      tryNames character_set rand used i fuel (attempts + 1)
        (nameGen character_set rand k (i + attempts)).2
    else
      { name := (nameGen character_set rand k (i + attempts)).1,
        used := (nameGen character_set rand k (i + attempts)).1 :: used,
        k := (nameGen character_set rand k (i + attempts)).2 }

/-- Result of the per-student PIN loop; `fellBack` records whether the
100-attempt loop was exhausted (the source's `else` of the `while`). -/
structure PinDraw where
  pin : String
  used : List String
  k : Nat
  fellBack : Bool
deriving DecidableEq, Repr

/-- The `while attempts < 100` loop for student `i`: candidate
`f"{random.randint(1000, 9999)}"`, accepted when unused so far; after 100
failed attempts fall back to `f"{1000 + i}"` (not added to `used_pins`). -/
def tryPins (rand : Nat → Nat) (used : List String) (i : Nat) :
    Nat → Nat → PinDraw
  | 0, k => { pin := natRepr (1000 + i), used := used, k := k, fellBack := true }
  | fuel + 1, k =>
    if used.contains (natRepr (1000 + rand k % 9000)) then
      tryPins rand used i fuel (k + 1)
    else
      { pin := natRepr (1000 + rand k % 9000),
        used := natRepr (1000 + rand k % 9000) :: used,
        k := k + 1, fellBack := false }

/-- One generated roster entry: the `Student` row the code builds plus the
ghost observation of whether its PIN came from the fallback branch. -/
structure GenEntry where
  student : Student
  pinFellBack : Bool
deriving DecidableEq, Repr

/-- The body of the `for i in range(1, count + 1)` loop, recursing over the
list of indices and threading `used_names`, `used_pins` and the stream
position. -/
def genStudentsAux (sess : Session) (rand : Nat → Nat) :
    List Nat → List String → List String → Nat → List GenEntry
  | [], _, _, _ => []
  | i :: rest, usedNames, usedPins, k =>
    let rn := tryNames sess.character_set rand usedNames i 50 0 k
    let rp := tryPins rand usedPins i 100 rn.k
    let username := ("student_" ++ sess.session_code ++ "_" ++ fmt02 i).toLower
    let st : Student :=
      { id := 0, username := username, email := username ++ "@datadeck.local",
        password_hash := generate_password_hash rp.pin,
        character_name := rn.name, teacher_id := sess.created_by_id,
        section_id := some sess.id, pin_hash := generate_password_hash rp.pin,
        avatar_path := "/static/avatars/" ++ sess.character_set ++ "/"
          ++ rn.name.toLower ++ ".png",
        pin := rp.pin }
    { student := st, pinFellBack := rp.fellBack }
      :: genStudentsAux sess rand rest rn.used rp.used rp.k

/-- `SessionService.generate_students_for_session`: `count` students for
the session, indices 1 through `count`.  (`id := 0` on the built rows:
ids are database-assigned on commit, the service never sets them.) -/
def generate_students_for_session (sess : Session) (count : Nat)
    (rand : Nat → Nat) : List GenEntry :=
  genStudentsAux sess rand (List.range' 1 count) [] [] 0

/-! ## StudentService (src/services/student_service.py) -/

/-- `StudentService.get_student_with_ownership_check`: filter by student id,
then by the denormalised `teacher_id`, take the first row. -/
def get_student_with_ownership_check (students : List Student)
    (student_id teacher_id : Nat) : Option Student :=
  ((students.filter (fun st => st.id == student_id)).filter
    (fun st => st.teacher_id == teacher_id)).head?

/-- `StudentService.reset_student_pin`: ownership check, then one draw of
`random.randint(1000, 9999)` with no uniqueness check against the roster;
both hash fields are overwritten; the plaintext is returned. -/
def reset_student_pin (db : DB) (student_id teacher_id : Nat)
    (rand : Nat → Nat) : Option String × DB :=
  match get_student_with_ownership_check db.students student_id teacher_id with
  | none => (none, db)
  | some st =>
    let newPin := natRepr (1000 + rand 0 % 9000)
    let h := generate_password_hash newPin
    (some newPin,
     { db with students := db.students.map (fun t =>
        if t.id == st.id then
          { t with password_hash := h, pin_hash := h, pin := newPin }
        else t) })

/-! ## Route-level session lifecycle (src/routes/sessions.py)

The embeddings cover the state-changing core of `archive_session` and
`unarchive_session` after authentication/ownership (out of scope per the
spec); flashes and redirects become result constructors. -/

inductive ArchiveResult where
  | notFound
  | alreadyArchived
  | ok (db : DB)
deriving DecidableEq, Repr

/-- `archive_session` route core: 404 lookup, already-archived no-op, else
`session.archive()` and commit. -/
def archive_session (db : DB) (session_id now : Nat) : ArchiveResult :=
  match db.sessions.find? (fun s => s.id == session_id) with
  | none => .notFound
  | some s =>
    if s.is_archived then .alreadyArchived
    else .ok { db with sessions := archiveById db.sessions s.id now }

inductive UnarchiveResult where
  | notFound
  | notArchived
  | conflict (existing : Session)
  | ok (db : DB)
deriving DecidableEq, Repr

/-- The field updates `unarchive_session` applies to the session row:
clear `is_archived` and `archived_at`; restore `original_name` into
`name` when it is truthy (neither `None` nor the empty string). -/
def unarchUpdate (t : Session) : Session :=
  if t.original_name.getD "" ≠ "" then
    { t with
      is_archived := false,
      archived_at := none,
      name := t.original_name.getD "",
      original_name := none }
  else { t with is_archived := false, archived_at := none }

/-- `unarchive_session` route core: 404 lookup, not-archived early return,
conflict check via `validate_session_uniqueness` (excluding the session
itself), then the unarchive update and commit. -/
def unarchive_session (db : DB) (session_id : Nat) : UnarchiveResult :=
  match db.sessions.find? (fun s => s.id == session_id) with
  | none => .notFound
  | some s =>
    if !s.is_archived then .notArchived
    else
      match validate_session_uniqueness db.sessions s.created_by_id s.sect
          (some s.id) with
      | some existing => .conflict existing
      | none =>
        .ok { db with sessions := db.sessions.map (fun t =>
          if t.id == s.id then unarchUpdate t else t) }

/-! ## Specification-level predicates -/

/-- The spec's Session Registry invariant, as a checker: no two distinct
non-archived sessions share a (teacher, section) pair. -/
def activeDup (sessions : List Session) : Bool :=
  sessions.any (fun a => sessions.any (fun b =>
    a.id != b.id && a.created_by_id == b.created_by_id && a.sect == b.sect
      && !a.is_archived && !b.is_archived))

/-- Invariant: for a given (teacher, section) pair, at most one Session
with `archived = false` exists. -/
def OneActivePerSlot (sessions : List Session) : Prop :=
  activeDup sessions = false

/-- The shape of every name produced by a theme generator (never by the
fallback): a nonempty all-letter base drawn from pool material — never the
word "Student" — followed by a nonempty digit suffix. -/
def GenShape (nm : String) : Prop :=
  ∃ b d, alphaStr b = true ∧ b ≠ "Student" ∧ digitStr d = true ∧ d ≠ "" ∧
    nm = b ++ d

/-! ## Concrete states used by the scenario theorems -/

/-- Scenario A/B starting state: teacher 1 has one ACTIVE session for
section 1 (the repository's own test fixture, `test_session_service.py`). -/
def s0 : Session :=
  { id := 1, name := "Existing Session", original_name := none,
    session_code := "EXIST123", sect := 1, module_id := 1, is_paused := false,
    is_archived := false, archived_at := none, character_set := "animals",
    created_by_id := 1 }

def db0 : DB := { sessions := [s0], students := [] }

/-- The session `create_session` builds from `db0` with draw chunk `[]`
(code "AAAAAAAA") and flushed id 2. -/
def ns1 : Session :=
  { id := 2, name := "New", original_name := none, session_code := "AAAAAAAA",
    sect := 1, module_id := 1, is_paused := false, is_archived := false,
    archived_at := none, character_set := "animals", created_by_id := 1 }

def db1 : DB := { sessions := [s0, ns1], students := [] }

/-- Roster-generation scenario session. -/
def sessC : Session :=
  { id := 5, name := "C", original_name := none, session_code := "CCCCCCCC",
    sect := 1, module_id := 1, is_paused := false, is_archived := false,
    archived_at := none, character_set := "animals", created_by_id := 3 }

/-- Credential-rotation scenario: teacher 7 owns session 9 with two
students whose plaintext PINs at generation time were 1234 and 5678. -/
def sessR : Session :=
  { id := 9, name := "R", original_name := none, session_code := "RRRRRRRR",
    sect := 2, module_id := 1, is_paused := false, is_archived := false,
    archived_at := none, character_set := "animals", created_by_id := 7 }

def stA : Student :=
  { id := 1, username := "student_rrrrrrrr_01", email := "a@datadeck.local",
    password_hash := generate_password_hash "1234", character_name := "Bear01",
    teacher_id := 7, section_id := some 9,
    pin_hash := generate_password_hash "1234", avatar_path := "",
    pin := "1234" }

def stB : Student :=
  { id := 2, username := "student_rrrrrrrr_02", email := "b@datadeck.local",
    password_hash := generate_password_hash "5678", character_name := "Wolf02",
    teacher_id := 7, section_id := some 9,
    pin_hash := generate_password_hash "5678", avatar_path := "",
    pin := "5678" }

def dbR : DB := { sessions := [sessR], students := [stA, stB] }

/-- Archived session used to witness a successful unarchive. -/
def sU : Session :=
  { id := 4, name := "U", original_name := none, session_code := "UUUUUUUU",
    sect := 3, module_id := 1, is_paused := true, is_archived := true,
    archived_at := some 5, character_set := "space", created_by_id := 2 }

def dbU : DB := { sessions := [sU], students := [] }

def dbU' : DB :=
  { sessions := [{ sU with is_archived := false, archived_at := none }],
    students := [] }

end DataDeck

namespace DataDeck

/-! ## Basic lemmas: the conflict query, decimal formatting, name shapes -/

/-- The embedded `find_active_conflict` matches no row, ever: its filter
carries the constant false produced by `cls.is_archived is False`. -/
theorem find_active_conflict_eq_none (sessions : List Session)
    (teacher_id sect : Nat) (ex : Option Nat) :
    find_active_conflict sessions teacher_id sect ex = none := by
  unfold find_active_conflict
  simp only [Bool.and_false, List.filter_false]
  cases ex with
  | none => rfl
  | some eid =>
    by_cases h : eid ≠ 0 <;> simp [h]

/-- No character is both an ASCII letter and an ASCII digit. -/
theorem letter_not_digit {c : Char} (h1 : isLetterChar c = true)
    (h2 : isDigitChar c = true) : False := by
  simp only [isLetterChar, isDigitChar, Bool.or_eq_true, Bool.and_eq_true,
    decide_eq_true_eq] at h1 h2
  omega

/-- A concatenation of an all-letter block and a nonempty all-digit block
determines both blocks. -/
theorem alpha_digit_split (a : List Char) :
    ∀ (b x y : List Char),
    (∀ c ∈ a, isLetterChar c = true) → (∀ c ∈ b, isLetterChar c = true) →
    (∀ c ∈ x, isDigitChar c = true) → (∀ c ∈ y, isDigitChar c = true) →
    x ≠ [] → y ≠ [] → a ++ x = b ++ y → a = b ∧ x = y := by
  induction a with
  | nil =>
    intro b x y _ hb hx _ hx0 _ h
    cases b with
    | nil => exact ⟨rfl, h⟩
    | cons c b' =>
      exfalso
      cases x with
      | nil => exact hx0 rfl
      | cons cx x' =>
        simp only [List.nil_append, List.cons_append, List.cons.injEq] at h
        refine letter_not_digit (hb c (List.mem_cons_self c b')) ?_
        rw [← h.1]
        exact hx cx (List.mem_cons_self cx x')
  | cons c a' ih =>
    intro b x y ha hb hx hy hx0 hy0 h
    cases b with
    | nil =>
      exfalso
      cases y with
      | nil => exact hy0 rfl
      | cons cy y' =>
        simp only [List.nil_append, List.cons_append, List.cons.injEq] at h
        refine letter_not_digit (ha c (List.mem_cons_self c a')) ?_
        rw [h.1]
        exact hy cy (List.mem_cons_self cy y')
    | cons c' b' =>
      simp only [List.cons_append, List.cons.injEq] at h
      obtain ⟨ih1, ih2⟩ := ih b' x y
        (fun d hd => ha d (List.mem_cons_of_mem _ hd))
        (fun d hd => hb d (List.mem_cons_of_mem _ hd)) hx hy hx0 hy0 h.2
      refine ⟨?_, ih2⟩
      rw [h.1, ih1]

/-- Accumulator lemma for the decimal digit builder. -/
theorem natDigitsAux_acc :
    ∀ (fuel n : Nat) (acc : List Char),
    natDigitsAux fuel n acc = natDigitsAux fuel n [] ++ acc
  | 0, _, _ => rfl
  | fuel + 1, n, acc => by
    by_cases h : n = 0
    · simp [natDigitsAux, h]
    · conv_lhs => rw [natDigitsAux, if_neg h,
        natDigitsAux_acc fuel (n / 10) (digitChar (n % 10) :: acc)]
      conv_rhs => rw [natDigitsAux, if_neg h,
        natDigitsAux_acc fuel (n / 10) [digitChar (n % 10)]]
      rw [List.append_assoc]
      rfl

/-- Every digit character the builder emits is an ASCII digit. -/
theorem digitChar_isDigit : ∀ d, d < 10 → isDigitChar (digitChar d) = true := by
  decide

theorem natDigitsAux_digits :
    ∀ (fuel n : Nat) (acc : List Char),
    (∀ c ∈ acc, isDigitChar c = true) →
    ∀ c ∈ natDigitsAux fuel n acc, isDigitChar c = true
  | 0, _, _, hacc => hacc
  | fuel + 1, n, acc, hacc => by
    by_cases h : n = 0
    · rw [natDigitsAux, if_pos h]; exact hacc
    · rw [natDigitsAux, if_neg h]
      refine natDigitsAux_digits fuel (n / 10) _ ?_
      intro c hc
      rcases List.mem_cons.mp hc with h1 | h1
      · rw [h1]; exact digitChar_isDigit _ (Nat.mod_lt _ (by omega))
      · exact hacc c h1

/-- The decimal representation is all digits. -/
theorem natRepr_digits (n : Nat) : digitStr (natRepr n) = true := by
  unfold natRepr digitStr
  split
  · decide
  · rw [List.all_eq_true]
    intro c hc
    exact natDigitsAux_digits n n [] (by simp) c hc

/-- `fmt02` output is all digits. -/
theorem fmt02_digits (n : Nat) : digitStr (fmt02 n) = true := by
  unfold fmt02
  split
  · unfold digitStr
    rw [String.data_append, List.all_append]
    have := natRepr_digits n
    unfold digitStr at this
    rw [this]
    decide
  · exact natRepr_digits n

/-- `fmt02` output is nonempty. -/
theorem fmt02_ne_empty (n : Nat) : fmt02 n ≠ "" := by
  unfold fmt02
  split
  · intro h
    have : ("0" ++ natRepr n).data = ("" : String).data := by rw [h]
    rw [String.data_append] at this
    simp at this
  · unfold natRepr
    split
    · omega
    · intro h
      have hd : (String.mk (natDigitsAux n n [])).data = ("" : String).data := by
        rw [h]
      next hn =>
        obtain ⟨m, rfl⟩ : ∃ m, n = m + 1 := ⟨n - 1, by omega⟩
        rw [natDigitsAux, if_neg hn, natDigitsAux_acc] at hd
        simp at hd

/-- `fmt02` is injective on the index range roster generation uses. -/
theorem fmt02_inj_small : ∀ i < 51, ∀ j < 51, fmt02 i = fmt02 j → i = j := by
  decide

/-! ## Shape of generated roster names -/

/-- `random.choice` returns a pool element whenever the pool is nonempty. -/
theorem choice_mem (pool : List String) (r : Nat) (hne : pool ≠ []) :
    choice pool r ∈ pool := by
  unfold choice
  have hlen : 0 < pool.length := List.length_pos.mpr hne
  have hlt : r % pool.length < pool.length := Nat.mod_lt _ hlen
  rw [List.getD_eq_getElem?_getD, List.getElem?_eq_getElem hlt]
  exact List.getElem_mem _

/-- Transfer a decidable all-elements property to a chosen element. -/
theorem choice_prop {p : String → Bool} (pool : List String) (r : Nat)
    (hne : pool ≠ []) (hall : pool.all p = true) : p (choice pool r) = true :=
  List.all_eq_true.mp hall _ (choice_mem pool r hne)

theorem alphaStr_append {a b : String} (ha : alphaStr a = true)
    (hb : alphaStr b = true) : alphaStr (a ++ b) = true := by
  unfold alphaStr at *
  rw [String.data_append, List.all_append, ha, hb]
  rfl

/-- Every theme generator emits a pool-derived all-letter base — never the
word "Student" — followed by the two-digit index. -/
theorem nameGen_shape (character_set : String) (rand : Nat → Nat)
    (k idx : Nat) : GenShape (nameGen character_set rand k idx).1 := by
  have hanimal : ∀ r, alphaStr (choice animal_names r) = true ∧
      choice animal_names r ≠ "Student" := by
    intro r
    refine ⟨choice_prop _ _ (by decide) (by decide), ?_⟩
    have := choice_prop (p := fun s => s != "Student") animal_names r
      (by decide) (by decide)
    simpa using this
  have hfantasy : ∀ r, alphaStr (choice fantasy_names r) = true ∧
      choice fantasy_names r ≠ "Student" := by
    intro r
    refine ⟨choice_prop _ _ (by decide) (by decide), ?_⟩
    have := choice_prop (p := fun s => s != "Student") fantasy_names r
      (by decide) (by decide)
    simpa using this
  have hcombo : ∀ (P S : List String), P ≠ [] → S ≠ [] →
      P.all (fun s => alphaStr s) = true → S.all (fun s => alphaStr s) = true →
      P.all (fun p => S.all (fun s => p ++ s != "Student")) = true →
      ∀ r r', alphaStr (choice P r ++ choice S r') = true ∧
        choice P r ++ choice S r' ≠ "Student" := by
    intro P S hP hS hPa hSa hPS r r'
    have h1 := choice_prop (p := fun s => alphaStr s) P r hP hPa
    have h2 := choice_prop (p := fun s => alphaStr s) S r' hS hSa
    refine ⟨alphaStr_append h1 h2, ?_⟩
    have h3 := List.all_eq_true.mp hPS _ (choice_mem P r hP)
    have h4 := List.all_eq_true.mp h3 _ (choice_mem S r' hS)
    simpa using h4
  unfold nameGen
  split
  · next _ =>
    obtain ⟨h1, h2⟩ := hcombo hero_prefixes hero_suffixes (by decide) (by decide)
      (by decide) (by decide) (by decide) (rand k) (rand (k + 1))
    exact ⟨_, fmt02 idx, h1, h2, fmt02_digits idx, fmt02_ne_empty idx, rfl⟩
  · split
    · next _ _ =>
      obtain ⟨h1, h2⟩ := hfantasy (rand k)
      exact ⟨_, fmt02 idx, h1, h2, fmt02_digits idx, fmt02_ne_empty idx, rfl⟩
    · split
      · next _ _ _ =>
        obtain ⟨h1, h2⟩ := hcombo space_prefixes space_suffixes (by decide)
          (by decide) (by decide) (by decide) (by decide) (rand k) (rand (k + 1))
        exact ⟨_, fmt02 idx, h1, h2, fmt02_digits idx, fmt02_ne_empty idx, rfl⟩
      · next _ _ _ =>
        obtain ⟨h1, h2⟩ := hanimal (rand k)
        exact ⟨_, fmt02 idx, h1, h2, fmt02_digits idx, fmt02_ne_empty idx, rfl⟩

/-- A string of generator shape is never a fallback name. -/
theorem genShape_ne_fallback {nm : String} (hs : GenShape nm) (i : Nat) :
    nm ≠ "Student" ++ fmt02 i := by
  obtain ⟨b, d, hba, hbs, hdd, hd0, rfl⟩ := hs
  intro h
  have hdata : b.data ++ d.data = ("Student" : String).data ++ (fmt02 i).data := by
    rw [← String.data_append, ← String.data_append, h]
  have hsplit := alpha_digit_split b.data ("Student" : String).data d.data
    (fmt02 i).data
    (List.all_eq_true.mp hba) (by decide)
    (List.all_eq_true.mp hdd) (List.all_eq_true.mp (fmt02_digits i))
    (fun hc => hd0 (String.ext hc))
    (fun hc => fmt02_ne_empty i (String.ext hc))
    hdata
  exact hbs (String.ext hsplit.1)

/-- Fallback names with equal indices below 51 coincide only when the
indices do. -/
theorem fallback_inj {i j : Nat} (hi : i < 51) (hj : j < 51)
    (h : ("Student" ++ fmt02 i : String) = "Student" ++ fmt02 j) : i = j := by
  refine fmt02_inj_small i hi j hj ?_
  have hdata : ("Student" : String).data ++ (fmt02 i).data
      = ("Student" : String).data ++ (fmt02 j).data := by
    rw [← String.data_append, ← String.data_append, h]
  exact String.ext (List.append_cancel_left hdata)

/-! ## Behaviour of the roster-generation loops -/

/-- The name loop either falls back (name `Student{i:02d}`, `used_names`
untouched) or returns a generator-shaped name that was unused and is now
recorded. -/
theorem tryNames_spec (character_set : String) (rand : Nat → Nat)
    (used : List String) (i : Nat) :
    ∀ (fuel attempts k : Nat),
    ((tryNames character_set rand used i fuel attempts k).name
        = "Student" ++ fmt02 i ∧
      (tryNames character_set rand used i fuel attempts k).used = used) ∨
    (GenShape (tryNames character_set rand used i fuel attempts k).name ∧
      ¬ (tryNames character_set rand used i fuel attempts k).name ∈ used ∧
      (tryNames character_set rand used i fuel attempts k).used
        = (tryNames character_set rand used i fuel attempts k).name :: used)
  | 0, _, _ => Or.inl ⟨rfl, rfl⟩
  | fuel + 1, attempts, k => by
    rw [tryNames]
    split
    · exact tryNames_spec character_set rand used i fuel (attempts + 1) _
    · next h =>
      refine Or.inr ⟨nameGen_shape character_set rand k (i + attempts), ?_, rfl⟩
      intro hm
      exact h (List.elem_iff.mpr hm)

/-- The PIN loop either falls back (PIN `1000 + i`, `used_pins` untouched,
flag set) or returns an unused drawn PIN that is now recorded. -/
theorem tryPins_spec (rand : Nat → Nat) (used : List String) (i : Nat) :
    ∀ (fuel k : Nat),
    ((tryPins rand used i fuel k).fellBack = true ∧
      (tryPins rand used i fuel k).pin = natRepr (1000 + i) ∧
      (tryPins rand used i fuel k).used = used) ∨
    ((tryPins rand used i fuel k).fellBack = false ∧
      ¬ (tryPins rand used i fuel k).pin ∈ used ∧
      (tryPins rand used i fuel k).used
        = (tryPins rand used i fuel k).pin :: used)
  | 0, _ => Or.inl ⟨rfl, rfl, rfl⟩
  | fuel + 1, k => by
    rw [tryPins]
    split
    · exact tryPins_spec rand used i fuel (k + 1)
    · next h =>
      refine Or.inr ⟨rfl, ?_, rfl⟩
      intro hm
      exact h (List.elem_iff.mpr hm)

/-- The batch always has exactly one entry per requested index. -/
theorem genStudentsAux_length (sess : Session) (rand : Nat → Nat) :
    ∀ (is : List Nat) (usedN usedP : List String) (k : Nat),
    (genStudentsAux sess rand is usedN usedP k).length = is.length
  | [], _, _, _ => rfl
  | _ :: rest, usedN, usedP, k => by
    rw [genStudentsAux, List.length_cons, genStudentsAux_length sess rand rest,
      List.length_cons]

/-- Every name in a batch is either a fallback name for one of the
requested indices or a generator-shaped name unused at batch start. -/
theorem genStudentsAux_name_mem (sess : Session) (rand : Nat → Nat) :
    ∀ (is : List Nat) (usedN usedP : List String) (k : Nat),
    ∀ e ∈ genStudentsAux sess rand is usedN usedP k,
    (∃ i ∈ is, e.student.character_name = "Student" ++ fmt02 i) ∨
    (GenShape e.student.character_name ∧
      ¬ e.student.character_name ∈ usedN)
  | [], _, _, _ => by intro e he; simp [genStudentsAux] at he
  | i :: rest, usedN, usedP, k => by
    intro e he
    rw [genStudentsAux] at he
    rcases List.mem_cons.mp he with he | he
    · rcases tryNames_spec sess.character_set rand usedN i 50 0 k with
        ⟨h1, _⟩ | ⟨h1, h2, _⟩
      · exact Or.inl ⟨i, List.mem_cons_self i rest, by rw [he]; exact h1⟩
      · exact Or.inr ⟨by rw [he]; exact h1, by rw [he]; exact h2⟩
    · have ih := genStudentsAux_name_mem sess rand rest
        (tryNames sess.character_set rand usedN i 50 0 k).used
        (tryPins rand usedP i 100
          (tryNames sess.character_set rand usedN i 50 0 k).k).used
        (tryPins rand usedP i 100
          (tryNames sess.character_set rand usedN i 50 0 k).k).k e he
      rcases ih with ⟨j, hj, hje⟩ | ⟨h1, h2⟩
      · exact Or.inl ⟨j, List.mem_cons_of_mem i hj, hje⟩
      · refine Or.inr ⟨h1, fun hm => h2 ?_⟩
        rcases tryNames_spec sess.character_set rand usedN i 50 0 k with
          ⟨_, hu⟩ | ⟨_, _, hu⟩
        · rw [hu]; exact hm
        · rw [hu]; exact List.mem_cons_of_mem _ hm

/-- Character names within one batch are pairwise distinct: generated
names are screened against `used_names`, fallback names carry pairwise
distinct indices, and the two shapes can never coincide. -/
theorem genStudentsAux_names_nodup (sess : Session) (rand : Nat → Nat) :
    ∀ (is : List Nat) (usedN usedP : List String) (k : Nat),
    is.Nodup → (∀ i ∈ is, i < 51) →
    ((genStudentsAux sess rand is usedN usedP k).map
      (fun e => e.student.character_name)).Nodup
  | [], _, _, _ => by intro _ _; simp [genStudentsAux]
  | i :: rest, usedN, usedP, k => by
    intro hnd hbd
    rw [genStudentsAux, List.map_cons, List.nodup_cons]
    dsimp only
    constructor
    · intro hm
      rcases List.mem_map.mp hm with ⟨e, he, hname⟩
      have hmem := genStudentsAux_name_mem sess rand rest _ _ _ e he
      rcases tryNames_spec sess.character_set rand usedN i 50 0 k with
        ⟨h1, hu⟩ | ⟨h1, h2, hu⟩
      · rcases hmem with ⟨j, hj, hje⟩ | ⟨hs, _⟩
        · have hij : i = j := by
            refine fallback_inj (hbd i (List.mem_cons_self i rest))
              (hbd j (List.mem_cons_of_mem i hj)) ?_
            rw [← h1, ← hname, hje]
          exact (List.nodup_cons.mp hnd).1 (hij ▸ hj)
        · exact genShape_ne_fallback hs i (by rw [hname, h1])
      · rcases hmem with ⟨j, hj, hje⟩ | ⟨hs, hnu⟩
        · exact genShape_ne_fallback h1 j (by rw [← hname, hje])
        · refine hnu ?_
          rw [hu, ← hname]
          exact List.mem_cons_self _ _
    · exact genStudentsAux_names_nodup sess rand rest _ _ _
        (List.nodup_cons.mp hnd).2
        (fun j hj => hbd j (List.mem_cons_of_mem i hj))

/-- Every entry whose PIN loop did not fall back holds a PIN unused at
batch start. -/
theorem genStudentsAux_pin_mem (sess : Session) (rand : Nat → Nat) :
    ∀ (is : List Nat) (usedN usedP : List String) (k : Nat),
    ∀ e ∈ genStudentsAux sess rand is usedN usedP k,
    e.pinFellBack = false → ¬ e.student.pin ∈ usedP
  | [], _, _, _ => by intro e he; simp [genStudentsAux] at he
  | i :: rest, usedN, usedP, k => by
    intro e he hfb
    rw [genStudentsAux] at he
    rcases List.mem_cons.mp he with he | he
    · rcases tryPins_spec rand usedP i 100
          (tryNames sess.character_set rand usedN i 50 0 k).k with
        ⟨h1, _, _⟩ | ⟨_, h2, _⟩
      · rw [he] at hfb
        dsimp only at hfb
        rw [hfb] at h1
        cases h1
      · rw [he]; exact h2
    · have ih := genStudentsAux_pin_mem sess rand rest
        (tryNames sess.character_set rand usedN i 50 0 k).used
        (tryPins rand usedP i 100
          (tryNames sess.character_set rand usedN i 50 0 k).k).used
        (tryPins rand usedP i 100
          (tryNames sess.character_set rand usedN i 50 0 k).k).k e he hfb
      intro hm
      refine ih ?_
      rcases tryPins_spec rand usedP i 100
          (tryNames sess.character_set rand usedN i 50 0 k).k with
        ⟨_, _, hu⟩ | ⟨_, _, hu⟩
      · rw [hu]; exact hm
      · rw [hu]; exact List.mem_cons_of_mem _ hm

/-- When no PIN fallback fired in a batch, the PINs are pairwise
distinct. -/
theorem genStudentsAux_pins_nodup (sess : Session) (rand : Nat → Nat) :
    ∀ (is : List Nat) (usedN usedP : List String) (k : Nat),
    (∀ e ∈ genStudentsAux sess rand is usedN usedP k, e.pinFellBack = false) →
    ((genStudentsAux sess rand is usedN usedP k).map
      (fun e => e.student.pin)).Nodup
  | [], _, _, _ => by intro _; simp [genStudentsAux]
  | i :: rest, usedN, usedP, k => by
    intro hall
    rw [genStudentsAux, List.map_cons, List.nodup_cons]
    dsimp only
    rw [genStudentsAux] at hall
    have hhead := hall _ (List.mem_cons_self _ _)
    dsimp only at hhead
    rcases tryPins_spec rand usedP i 100
        (tryNames sess.character_set rand usedN i 50 0 k).k with
      ⟨h1, _, _⟩ | ⟨_, hnu, hu⟩
    · rw [hhead] at h1; cases h1
    · constructor
      · intro hm
        rcases List.mem_map.mp hm with ⟨e, he, hpin⟩
        have := genStudentsAux_pin_mem sess rand rest _ _ _ e he
          (hall e (List.mem_cons_of_mem _ he))
        refine this ?_
        rw [hu, ← hpin]
        exact List.mem_cons_self _ _
      · exact genStudentsAux_pins_nodup sess rand rest _ _ _
          (fun e he => hall e (List.mem_cons_of_mem _ he))

/-! ## Archive / unarchive support -/

/-- `find?` returns the designated element when it satisfies the predicate
and is the only member doing so. -/
theorem find?_eq_some_of_uniq {α : Type} (p : α → Bool) (a : α) :
    ∀ (l : List α), a ∈ l → p a = true →
    (∀ b ∈ l, p b = true → b = a) → l.find? p = some a
  | [], ha, _, _ => absurd ha (List.not_mem_nil a)
  | c :: l', ha, hpa, huniq => by
    by_cases hc : p c = true
    · rw [List.find?_cons_of_pos _ hc, huniq c (List.mem_cons_self c l') hc]
    · rw [List.find?_cons_of_neg _ (by simpa using hc)]
      rcases List.mem_cons.mp ha with rfl | ha'
      · exact absurd hpa hc
      · exact find?_eq_some_of_uniq p a l' ha' hpa
          (fun b hb hpb => huniq b (List.mem_cons_of_mem c hb) hpb)

theorem archive_id (s : Session) (now : Nat) : (s.archive now).id = s.id := by
  unfold Session.archive; split <;> rfl

theorem archive_is_paused (s : Session) (now : Nat) :
    (s.archive now).is_paused = s.is_paused := by
  unfold Session.archive; split <;> rfl

theorem unarchUpdate_id (t : Session) : (unarchUpdate t).id = t.id := by
  unfold unarchUpdate; split <;> rfl

theorem unarchUpdate_is_archived (t : Session) :
    (unarchUpdate t).is_archived = false := by
  unfold unarchUpdate; split <;> rfl

theorem unarchUpdate_archived_at (t : Session) :
    (unarchUpdate t).archived_at = none := by
  unfold unarchUpdate; split <;> rfl

theorem unarchUpdate_is_paused (t : Session) :
    (unarchUpdate t).is_paused = t.is_paused := by
  unfold unarchUpdate; split <;> rfl

/-- Inversion for a successful unarchive: the session was found and was
archived, the (always-empty) conflict check passed, and the new state is
the pointwise update. -/
theorem unarchive_ok_inv (db : DB) (sid : Nat) (db2 : DB)
    (h : unarchive_session db sid = UnarchiveResult.ok db2) :
    ∃ s, db.sessions.find? (fun t => t.id == sid) = some s ∧
      s.is_archived = true ∧
      db2 = { db with sessions := db.sessions.map (fun t =>
        if t.id == s.id then unarchUpdate t else t) } := by
  unfold unarchive_session at h
  cases hfind : db.sessions.find? (fun t => t.id == sid) with
  | none => rw [hfind] at h; cases h
  | some s =>
    rw [hfind] at h
    dsimp only at h
    by_cases harch : s.is_archived = true
    · rw [harch, validate_session_uniqueness, find_active_conflict_eq_none] at h
      simp only [Bool.not_true] at h
      rw [if_neg (by simp)] at h
      exact ⟨s, rfl, harch, (UnarchiveResult.ok.inj h).symm⟩
    · rw [Bool.not_eq_true] at harch
      rw [harch] at h
      simp at h

/-! ## Claim theorems -/

/-- C1: the claim says every core operation preserves the at-most-one
non-archived session per (teacher, section) invariant.  The code violates
it: starting from a state satisfying the invariant, with teacher 1 already
holding the one active session for section 1, `create_session` (without
auto-archive) goes through — `find_active_conflict`'s broken
`is False` filter reports no conflict — and leaves two non-archived
sessions for the same (teacher, section) pair. -/
theorem C1_create_session_breaks_invariant :
    OneActivePerSlot db0.sessions ∧
    create_session db0 1 "New" 1 1 "animals" false [[]] 100 2
      = CreateOutcome.created db1 ns1 false ∧
    ¬ OneActivePerSlot db1.sessions := by
  refine ⟨by unfold OneActivePerSlot; decide, by decide, ?_⟩
  intro h
  unfold OneActivePerSlot at h
  exact absurd h (by decide)

/-- C2: the claim says `checkConflict` returns the non-archived session of
the (teacher, section) pair when one exists.  Evaluating the code on a
state holding exactly such a session: session `s0` is non-archived, owned
by teacher 1 for section 1, yet `validate_session_uniqueness` returns
`none` — the `cls.is_archived is False` filter makes the query match no
row at all. -/
theorem C2_conflict_check_misses_existing_conflict :
    s0 ∈ db0.sessions ∧ s0.is_archived = false ∧ s0.created_by_id = 1 ∧
    s0.sect = 1 ∧
    validate_session_uniqueness db0.sessions 1 1 none = none := by
  refine ⟨?_, ?_, ?_, ?_, ?_⟩ <;> decide

/-- C3: the claim says `createSession` with `autoArchiveExisting = false`
raises a `SessionConflictError` when the teacher already holds an active
session for the section, creating nothing.  Evaluating the code: no error
is raised; a second session is created alongside the conflicting one. -/
theorem C3_conflict_scenario_creates_instead_of_raising :
    s0 ∈ db0.sessions ∧ s0.is_archived = false ∧ s0.created_by_id = 1 ∧
    s0.sect = 1 ∧
    create_session db0 1 "New" 1 1 "animals" false [[]] 100 2
      = CreateOutcome.created db1 ns1 false := by
  refine ⟨?_, ?_, ?_, ?_, ?_⟩ <;> decide

/-- C4: the claim says `createSession` with `autoArchiveExisting = true`
archives the one conflicting session and reports `wasArchived = true`.
Evaluating the code on the conflict state: the conflict is never seen, so
nothing is archived (the old session stays active with `archived_at`
null) and the call returns `wasArchived = false`. -/
theorem C4_auto_archive_archives_nothing :
    create_session db0 1 "New" 1 1 "animals" true [[]] 100 2
      = CreateOutcome.created db1 ns1 false ∧
    s0 ∈ db1.sessions ∧ s0.is_archived = false ∧ s0.archived_at = none := by
  refine ⟨?_, ?_, ?_, ?_⟩ <;> decide

/-- C5 counterexample: the claim asserts pairwise-distinct plaintext PINs
in every generated batch, including when the deterministic fallbacks are
used.  With the draw stream constantly returning 2, student 1 draws PIN
1002, student 2 exhausts its 100 draws (every candidate is 1002, already
used) and falls back to the deterministic `1000 + i` = 1002 — a
duplicate of student 1's PIN. -/
theorem C5_fallback_pin_duplicates_drawn_pin :
    ((generate_students_for_session sessC 2 (fun _ => 2)).map
      (fun e => e.student.pin)) = ["1002", "1002"] ∧
    ¬ ((generate_students_for_session sessC 2 (fun _ => 2)).map
      (fun e => e.student.pin)).Nodup := by
  constructor
  · rfl
  · intro h
    exact absurd h (by decide)

/-- C5 (amended): `generate_students_for_session` returns exactly `count`
entries; character names are pairwise distinct in every batch, fallbacks
included; plaintext PINs are pairwise distinct provided no entry's PIN
came from the 100-draw-exhaustion fallback (the fallback value `1000 + i`
is not checked against `used_pins` and can duplicate an earlier PIN). -/
theorem C5_roster_count_names_always_unique_pins_unique_without_fallback
    (sess : Session) (count : Nat) (rand : Nat → Nat)
    (h1 : 1 ≤ count) (h2 : count ≤ 50) :
    (generate_students_for_session sess count rand).length = count ∧
    ((generate_students_for_session sess count rand).map
      (fun e => e.student.character_name)).Nodup ∧
    ((∀ e ∈ generate_students_for_session sess count rand,
        e.pinFellBack = false) →
      ((generate_students_for_session sess count rand).map
        (fun e => e.student.pin)).Nodup) := by
  unfold generate_students_for_session
  refine ⟨?_, ?_, ?_⟩
  · rw [genStudentsAux_length]
    exact List.length_range' ..
  · refine genStudentsAux_names_nodup sess rand _ _ _ _
      (List.nodup_range' 1 count 1 Nat.one_pos) ?_
    intro i hi
    have := (List.mem_range'_1.mp hi).2
    omega
  · intro hall
    exact genStudentsAux_pins_nodup sess rand _ _ _ _ hall

/-- C5 witness: a concrete two-student batch. -/
theorem C5_roster_witness :
    1 ≤ 2 ∧ 2 ≤ 50 ∧
    ((generate_students_for_session sessC 2 (fun _ => 0)).length = 2 ∧
      ((generate_students_for_session sessC 2 (fun _ => 0)).map
        (fun e => e.student.character_name)).Nodup ∧
      ((∀ e ∈ generate_students_for_session sessC 2 (fun _ => 0),
          e.pinFellBack = false) →
        ((generate_students_for_session sessC 2 (fun _ => 0)).map
          (fun e => e.student.pin)).Nodup)) :=
  ⟨by decide, by decide,
    C5_roster_count_names_always_unique_pins_unique_without_fallback
      sessC 2 (fun _ => 0) (by decide) (by decide)⟩

/-- C7 counterexample: the claim says the PIN produced by `resetPin` is
distinct from every other PIN in the student's roster.  In state `dbR`
student 1 (same session as student 2) holds plaintext PIN 1234; resetting
student 2's PIN with a draw stream yielding 234 returns PIN 1234 — equal
to their roster-mate's PIN, because the code performs no draw-and-check
against the roster. -/
theorem C7_reset_pin_collides_with_roster_mate :
    (reset_student_pin dbR 2 7 (fun _ => 234)).1 = some "1234" ∧
    stB.id = 2 ∧ stA ∈ dbR.students ∧ stA.id ≠ 2 ∧
    stA.section_id = stB.section_id ∧ stA.pin = "1234" := by
  refine ⟨?_, ?_, ?_, ?_, ?_, ?_⟩ <;> decide

/-- C7 (amended): when the ownership check passes, `resetPin` performs one
unchecked draw of a 4-digit PIN — `random.randint(1000, 9999)`, the same
range roster generation draws from, but without the draw-and-check loop —
overwrites both hash fields of that student with the new PIN's hash, and
returns the plaintext; the result may equal another roster member's
PIN. -/
theorem C7_reset_pin_is_one_unchecked_draw (db : DB) (sid tid : Nat)
    (rand : Nat → Nat) (st : Student)
    (h : get_student_with_ownership_check db.students sid tid = some st) :
    (reset_student_pin db sid tid rand).1
      = some (natRepr (1000 + rand 0 % 9000)) ∧
    1000 ≤ 1000 + rand 0 % 9000 ∧ 1000 + rand 0 % 9000 ≤ 9999 ∧
    (reset_student_pin db sid tid rand).2
      = { db with students := db.students.map (fun t =>
          if t.id == st.id then
            { t with
              password_hash :=
                generate_password_hash (natRepr (1000 + rand 0 % 9000)),
              pin_hash :=
                generate_password_hash (natRepr (1000 + rand 0 % 9000)),
              pin := natRepr (1000 + rand 0 % 9000) }
          else t) } := by
  unfold reset_student_pin
  rw [h]
  refine ⟨rfl, by omega, ?_, rfl⟩
  have := Nat.mod_lt (rand 0) (y := 9000) (by omega)
  omega

/-- C7 witness: resetting student 2's PIN as its owning teacher 7. -/
theorem C7_reset_pin_witness :
    get_student_with_ownership_check dbR.students 2 7 = some stB ∧
    ((reset_student_pin dbR 2 7 (fun _ => 0)).1
        = some (natRepr (1000 + 0 % 9000)) ∧
      1000 ≤ 1000 + 0 % 9000 ∧ 1000 + 0 % 9000 ≤ 9999 ∧
      (reset_student_pin dbR 2 7 (fun _ => 0)).2
        = { dbR with students := dbR.students.map (fun t =>
            if t.id == stB.id then
              { t with
                password_hash :=
                  generate_password_hash (natRepr (1000 + 0 % 9000)),
                pin_hash :=
                  generate_password_hash (natRepr (1000 + 0 % 9000)),
                pin := natRepr (1000 + 0 % 9000) }
            else t) }) :=
  ⟨by decide, C7_reset_pin_is_one_unchecked_draw dbR 2 7 (fun _ => 0) stB
    (by decide)⟩

/-- C8: whenever `generate_session_code` returns a token, the token has
exactly the requested length, every symbol comes from the
uppercase-letters-plus-digits alphabet, and the uniqueness oracle (the
registry of current session codes) reports it as not present. -/
theorem C8_generated_code_length_alphabet_fresh (sessions : List Session) :
    ∀ (draws : List (List Nat)) (len : Nat) (code : String),
    generate_session_code sessions draws len = some code →
    code.length = len ∧ (∀ c ∈ code.data, c ∈ codeAlphabet) ∧
    session_code_exists sessions code = false
  | [], _, _, h => by cases h
  | draw :: rest, len, code, h => by
    rw [generate_session_code] at h
    by_cases hex : session_code_exists sessions (mkCode draw len) = true
    · rw [if_pos hex] at h
      exact C8_generated_code_length_alphabet_fresh sessions rest len code h
    · rw [if_neg hex] at h
      injection h with h2
      subst h2
      refine ⟨?_, ?_, by rwa [Bool.not_eq_true] at hex⟩
      · show (String.mk ((List.range len).map _)).length = len
        rw [show ∀ l : List Char, (String.mk l).length = l.length from
          fun _ => rfl, List.length_map, List.length_range]
      · intro c hc
        rcases List.mem_map.mp hc with ⟨j, _, hj⟩
        rw [← hj]
        have hlt : draw.getD j 0 % 36 < codeAlphabet.length :=
          Nat.mod_lt _ (by decide)
        rw [List.getD_eq_getElem?_getD, List.getElem?_eq_getElem hlt]
        exact List.getElem_mem _

/-- C8 witness: one draw over an empty registry. -/
theorem C8_generated_code_witness :
    generate_session_code ([] : List Session) [[]] 8 = some "AAAAAAAA" ∧
    (("AAAAAAAA" : String).length = 8 ∧
      (∀ c ∈ ("AAAAAAAA" : String).data, c ∈ codeAlphabet) ∧
      session_code_exists [] "AAAAAAAA" = false) :=
  ⟨by decide, C8_generated_code_length_alphabet_fresh [] [[]] 8 "AAAAAAAA"
    (by decide)⟩

/-- C9: when the requesting teacher does not own the student's session
(the student's denormalised `teacher_id`, set at generation time to the
session owner, differs from the caller), `reset_student_pin` returns
`None` and leaves the state untouched. -/
theorem C9_reset_pin_without_ownership_mutates_nothing
    (db : DB) (sid tid : Nat) (rand : Nat → Nat) (st : Student)
    (sess : Session)
    (hmem : st ∈ db.students) (hid : st.id = sid)
    (huniq : ∀ t ∈ db.students, t.id = sid → t = st)
    (hsess : st.section_id = some sess.id)
    (hlink : st.teacher_id = sess.created_by_id)
    (hnotown : sess.created_by_id ≠ tid) :
    reset_student_pin db sid tid rand = (none, db) := by
  have hget : get_student_with_ownership_check db.students sid tid = none := by
    unfold get_student_with_ownership_check
    rw [List.head?_eq_none_iff, List.filter_eq_nil_iff]
    intro a ha
    have hmem2 := List.mem_filter.mp ha
    have haeq : a = st := huniq a hmem2.1 (by simpa using hmem2.2)
    subst haeq
    simp only [beq_iff_eq, hlink]
    exact hnotown
  unfold reset_student_pin
  rw [hget]

/-- C9 witness: teacher 9 tries to reset a PIN in teacher 7's session. -/
theorem C9_reset_pin_witness :
    stB ∈ dbR.students ∧ stB.id = 2 ∧
    (∀ t ∈ dbR.students, t.id = 2 → t = stB) ∧
    stB.section_id = some sessR.id ∧ stB.teacher_id = sessR.created_by_id ∧
    sessR.created_by_id ≠ 9 ∧
    reset_student_pin dbR 2 9 (fun _ => 0) = (none, dbR) :=
  ⟨by decide, by decide, by decide, by decide, by decide, by decide,
    C9_reset_pin_without_ownership_mutates_nothing dbR 2 9 (fun _ => 0) stB
      sessR (by decide) (by decide) (by decide) (by decide) (by decide)
      (by decide)⟩

/-- C6: archiving a non-archived session and then immediately unarchiving
it (no intervening session creation) succeeds and returns the session to
its active state: `is_archived` is false again, `archived_at` is null,
and the independent `is_paused` flag carries its pre-archive value. -/
theorem C6_archive_then_unarchive_round_trip (db : DB) (s : Session)
    (now : Nat)
    (hmem : s ∈ db.sessions)
    (huniq : ∀ t ∈ db.sessions, t.id = s.id → t = s)
    (hact : s.is_archived = false) :
    ∃ dba dbb s2,
      archive_session db s.id now = ArchiveResult.ok dba ∧
      unarchive_session dba s.id = UnarchiveResult.ok dbb ∧
      dbb.sessions.find? (fun t => t.id == s.id) = some s2 ∧
      s2.is_archived = false ∧ s2.archived_at = none ∧
      s2.is_paused = s.is_paused := by
  have hfind : db.sessions.find? (fun t => t.id == s.id) = some s :=
    find?_eq_some_of_uniq _ s db.sessions hmem (by simp)
      (fun b hb hpb => huniq b hb (by simpa using hpb))
  have hcomp : ((fun t : Session => t.id == s.id) ∘ fun t : Session =>
      if t.id == s.id then t.archive now else t)
      = fun t : Session => t.id == s.id := by
    funext t
    by_cases h : (t.id == s.id) = true
    · simp only [Function.comp_apply]
      rw [if_pos h, archive_id]
    · simp only [Function.comp_apply]
      rw [if_neg h]
  have hfind1 : (archiveById db.sessions s.id now).find?
      (fun t => t.id == s.id) = some (s.archive now) := by
    unfold archiveById
    rw [List.find?_map, hcomp, hfind]
    show some (if s.id == s.id then s.archive now else s) = _
    rw [if_pos (by simp)]
  have hsarch : (s.archive now).is_archived = true := by
    unfold Session.archive
    rw [if_neg (by simp [hact])]
  refine ⟨{ db with sessions := archiveById db.sessions s.id now },
    { db with sessions := (archiveById db.sessions s.id now).map (fun t =>
        if t.id == (s.archive now).id then unarchUpdate t else t) },
    unarchUpdate (s.archive now), ?_, ?_, ?_,
    unarchUpdate_is_archived _, unarchUpdate_archived_at _, ?_⟩
  · -- the archive step succeeds
    unfold archive_session
    rw [hfind]
    show (if s.is_archived = true then _ else _) = _
    rw [if_neg (by simp [hact])]
  · -- the unarchive step succeeds
    unfold unarchive_session
    show (match (archiveById db.sessions s.id now).find?
        (fun t => t.id == s.id) with
      | none => UnarchiveResult.notFound
      | some t =>
        if !t.is_archived then UnarchiveResult.notArchived
        else
          match validate_session_uniqueness
              (archiveById db.sessions s.id now) t.created_by_id t.sect
              (some t.id) with
          | some existing => UnarchiveResult.conflict existing
          | none => UnarchiveResult.ok _) = _
    rw [hfind1]
    dsimp only
    rw [hsarch, validate_session_uniqueness, find_active_conflict_eq_none]
    simp only [Bool.not_true]
    rw [if_neg (by simp)]
  · -- the round-tripped session is found in the final state
    show ((archiveById db.sessions s.id now).map (fun t =>
        if t.id == (s.archive now).id then unarchUpdate t else t)).find?
        (fun t => t.id == s.id) = _
    have hcomp2 : ((fun t : Session => t.id == s.id) ∘ fun t : Session =>
        if t.id == (s.archive now).id then unarchUpdate t else t)
        = fun t : Session => t.id == s.id := by
      funext t
      by_cases h : (t.id == (s.archive now).id) = true
      · simp only [Function.comp_apply]
        rw [if_pos h, unarchUpdate_id]
      · simp only [Function.comp_apply]
        rw [if_neg h]
    rw [List.find?_map, hcomp2, hfind1]
    show some (if (s.archive now).id == (s.archive now).id
        then unarchUpdate (s.archive now) else s.archive now) = _
    rw [if_pos (by simp)]
  · rw [unarchUpdate_is_paused, archive_is_paused]

/-- C6 witness: the round trip on the concrete active session `s0`. -/
theorem C6_round_trip_witness :
    s0 ∈ db0.sessions ∧ (∀ t ∈ db0.sessions, t.id = s0.id → t = s0) ∧
    s0.is_archived = false ∧
    (∃ dba dbb s2,
      archive_session db0 s0.id 42 = ArchiveResult.ok dba ∧
      unarchive_session dba s0.id = UnarchiveResult.ok dbb ∧
      dbb.sessions.find? (fun t => t.id == s0.id) = some s2 ∧
      s2.is_archived = false ∧ s2.archived_at = none ∧
      s2.is_paused = s0.is_paused) :=
  ⟨by decide, by decide, by decide,
    C6_archive_then_unarchive_round_trip db0 s0 42 (by decide) (by decide)
      (by decide)⟩

/-- C10: neither archiving nor a successful unarchive touches the
`is_paused` flag — `Session.archive` only sets `is_archived` and
`archived_at`, and the unarchive route only clears them (and possibly
restores the name) — so a session paused when archived is still paused
after being unarchived. -/
theorem C10_archive_and_unarchive_preserve_paused (s : Session) (now : Nat)
    (db : DB) (sid : Nat) (db2 : DB)
    (h : unarchive_session db sid = UnarchiveResult.ok db2) :
    (s.archive now).is_paused = s.is_paused ∧
    db2.sessions.map Session.is_paused = db.sessions.map Session.is_paused := by
  refine ⟨archive_is_paused s now, ?_⟩
  obtain ⟨t, _, _, rfl⟩ := unarchive_ok_inv db sid db2 h
  show (db.sessions.map _).map _ = _
  rw [List.map_map]
  refine List.map_congr_left ?_
  intro a _
  simp only [Function.comp_apply]
  by_cases ha : (a.id == t.id) = true
  · rw [if_pos ha, unarchUpdate_is_paused]
  · rw [if_neg ha]

/-- C10 witness: unarchiving the concrete paused, archived session `sU`
leaves it paused. -/
theorem C10_preserve_paused_witness :
    unarchive_session dbU 4 = UnarchiveResult.ok dbU' ∧
    ((sU.archive 42).is_paused = sU.is_paused ∧
      dbU'.sessions.map Session.is_paused
        = dbU.sessions.map Session.is_paused) :=
  ⟨by decide,
    C10_archive_and_unarchive_preserve_paused sU 42 dbU 4 dbU' (by decide)⟩

end DataDeck
